import Mathlib

/-!
Shallow embedding of `skimage/data/__init__.py`: the sample-image loader
module.  Pure values model images and errors; the process-wide mutable
state touched by the module (the active io plugin and the warning stream)
is threaded explicitly through every function.  External collaborators
that live outside this file's source (the io backend `imread`/`use_plugin`,
the `img_as_bool` conversion, the `deprecated` decorator) are modelled
from the specification's documented contracts, each marked in its doc
comment.
-/

/-- A decoded raster image: a multi-dimensional array of pixel samples.
`shape` lists the axis extents (2 entries for grayscale, 3 with a trailing
channel axis for color), `data` the flattened samples, and `maxVal` the
maximum representable sample value of the pixel type (255 for 8-bit
unsigned samples, 1 for boolean-encoded images). -/
structure Image where
  shape : List Nat
  data : List Nat
  maxVal : Nat
deriving Repr, DecidableEq

/-- Height of an image: extent of the first axis (0 if absent). -/
def Image.height (img : Image) : Nat := img.shape.getD 0 0

/-- Width of an image: extent of the second axis (0 if absent). -/
def Image.width (img : Image) : Nat := img.shape.getD 1 0

/-- Python-level error values that the module can raise.  `runtimeError`
is the generic RuntimeError class (used by `lena`), the other
constructors model the io failure modes of the backend. -/
inductive PyError where
  | runtimeError (msg : String)
  | fileNotFound (msg : String)
  | decodeError (msg : String)
deriving Repr, DecidableEq

/-- A warning emitted to the process warning stream. -/
inductive Warning where
  | deprecation (replacement : String)
  | conversion (msg : String)
deriving Repr, DecidableEq

/-- The process-wide mutable state the module touches: the io plugin
selected by `use_plugin`, and the stream of warnings emitted so far. -/
structure WState where
  plugin : Option String
  warnings : List Warning
deriving Repr, DecidableEq

/-- Append a warning to the warning stream. -/
def warn (w : Warning) (s : WState) : WState :=
  WState.mk s.plugin (s.warnings ++ [w])

/-- The immutable environment: the process-wide data directory constant
(`skimage.data_dir`, resolved once at module initialization) and the
decoding backend.  `decode plugin path as_grey` is the backend's decode
of the file at `path` under the currently selected `plugin`; it stands
for the filesystem content together with the decoder. -/
structure Env where
  dataDir : String
  decode : Option String → String → Bool → Except PyError Image

/-- Whether a posix path string is absolute: its first character is the
separator. -/
def isAbs (b : String) : Bool := b.data.head? = some '/'

/-- Whether a posix path string ends in the separator. -/
def endsWithSep (a : String) : Bool := a.data.getLast? = some '/'

/-- Model of `os.path.join(a, b)` for posix paths with two components:
an absolute second component discards the first; otherwise the parts are
joined with a separator unless the first is empty or already ends in one. -/
def path_join (a b : String) : String :=
  if isAbs b then b
  else if a = "" ∨ endsWithSep a then a ++ b
  else a ++ "/" ++ b

/-- Modelled from the spec: `skimage.io.use_plugin` (not under src/) —
backend selection/initialization; records the chosen plugin in the
process-wide io state. -/
def use_plugin (name : String) (s : WState) : WState :=
  WState.mk (some name) s.warnings

/-- Modelled from the spec: `skimage.io.imread` (not under src/) — the
backend entry point `decode(path, as_grayscale) -> Image`; dispatches to
the currently selected plugin and returns the decoded image or a typed
io failure, with no further transformation. -/
def imread (env : Env) (path : String) (as_grey : Bool) (s : WState) :
    Except PyError Image × WState :=
  (env.decode s.plugin path as_grey, s)

/-- `load(f, as_grey=False)`: select the pil plugin, then read the image
at the data directory joined with `f`. -/
def load (env : Env) (f : String) (as_grey : Bool) (s : WState) :
    Except PyError Image × WState :=
  imread env (path_join env.dataDir f) as_grey (use_plugin "pil" s)

/-- Modelled from the spec: the boolean-conversion collaborator
`toBoolean(Image) -> Image` used by the horse accessor — maps a
grayscale image to a two-valued image by thresholding each sample at the
midpoint of the pixel type's range (decode-dependent). -/
def toBoolean (img : Image) : Image :=
  Image.mk img.shape (img.data.map (fun v => if img.maxVal < 2 * v then 1 else 0)) 1

/-- Modelled from the spec: `skimage.img_as_bool` (not under src/) —
performs the boolean conversion and may emit a conversion warning (the
spec's open question notes the step can emit warnings; `horse`
suppresses them). -/
def img_as_bool (img : Image) (s : WState) : Image × WState :=
  (toBoolean img, warn (Warning.conversion "possible precision loss converting to bool") s)

/-- Model of `warnings.catch_warnings()` with `simplefilter("ignore")`:
run the inner action with warnings ignored; the warning stream is
restored to its prior contents afterwards, while every other state
change made inside persists. -/
def catchWarnIgnore (f : WState → Except PyError Image × WState) (s : WState) :
    Except PyError Image × WState :=
  let r := f s
  (r.1, WState.mk r.2.plugin s.warnings)

/-- Modelled from the spec: the `deprecated` decorator from
`skimage._shared.utils` (not under src/) — per the spec's
deprecation-by-exception pattern, it wraps an accessor to emit a
deprecation warning naming the given replacement before invoking the
wrapped function. -/
def deprecated (altFunc : String) (func : Env → WState → Except PyError Image × WState) :
    Env → WState → Except PyError Image × WState :=
  fun env s => func env (warn (Warning.deprecation altFunc) s)

/-- Body of `lena()`: unconditionally raises RuntimeError. -/
def lenaBody (_env : Env) (s : WState) : Except PyError Image × WState :=
  (Except.error (PyError.runtimeError "This image has been removed due to copyright concerns."),
   s)

/-- `lena()`: the body wrapped by the deprecation decorator naming
`skimage.data.astronaut` as the replacement. -/
def lena : Env → WState → Except PyError Image × WState :=
  deprecated "skimage.data.astronaut" lenaBody

/-- `camera()`. -/
def camera (env : Env) (s : WState) : Except PyError Image × WState :=
  load env "camera.png" false s

/-- `astronaut()`. -/
def astronaut (env : Env) (s : WState) : Except PyError Image × WState :=
  load env "astronaut.png" false s

/-- `text()`. -/
def text (env : Env) (s : WState) : Except PyError Image × WState :=
  load env "text.png" false s

/-- `checkerboard()`. -/
def checkerboard (env : Env) (s : WState) : Except PyError Image × WState :=
  load env "chessboard_GRAY.png" false s

/-- `coins()`. -/
def coins (env : Env) (s : WState) : Except PyError Image × WState :=
  load env "coins.png" false s

/-- `moon()`. -/
def moon (env : Env) (s : WState) : Except PyError Image × WState :=
  load env "moon.png" false s

/-- `page()`. -/
def page (env : Env) (s : WState) : Except PyError Image × WState :=
  load env "page.png" false s

/-- `horse()`: load `horse.png` with `as_grey=True`, convert the result
with `img_as_bool`, all under a catch-warnings block that ignores
warnings. -/
def horse (env : Env) (s : WState) : Except PyError Image × WState :=
  catchWarnIgnore (fun s0 =>
    let r := load env "horse.png" true s0
    match r.1 with
    | Except.ok img =>
        let p := img_as_bool img r.2
        (Except.ok p.1, p.2)
    | Except.error e => (Except.error e, r.2)) s

/-- `clock()`. -/
def clock (env : Env) (s : WState) : Except PyError Image × WState :=
  load env "clock_motion.png" false s

/-- `immunohistochemistry()`. -/
def immunohistochemistry (env : Env) (s : WState) : Except PyError Image × WState :=
  load env "ihc.png" false s

/-- `chelsea()`. -/
def chelsea (env : Env) (s : WState) : Except PyError Image × WState :=
  load env "chelsea.png" false s

/-- `coffee()`. -/
def coffee (env : Env) (s : WState) : Except PyError Image × WState :=
  load env "coffee.png" false s

/-- `hubble_deep_field()`. -/
def hubble_deep_field (env : Env) (s : WState) : Except PyError Image × WState :=
  load env "hubble_deep_field.jpg" false s

/-- `rocket()`. -/
def rocket (env : Env) (s : WState) : Except PyError Image × WState :=
  load env "rocket.jpg" false s

/-- The named accessors exported by the module (the entries of `__all__`
other than `load` itself). -/
inductive AccessorName where
  | camera | lena | text | checkerboard | coins | moon | page | horse | clock
  | immunohistochemistry | chelsea | coffee | hubble_deep_field | rocket | astronaut
deriving Repr, DecidableEq

/-- Dispatch a logical accessor name to its accessor function. -/
def runAccessor : AccessorName → Env → WState → Except PyError Image × WState
  | AccessorName.camera => camera
  | AccessorName.lena => lena
  | AccessorName.text => text
  | AccessorName.checkerboard => checkerboard
  | AccessorName.coins => coins
  | AccessorName.moon => moon
  | AccessorName.page => page
  | AccessorName.horse => horse
  | AccessorName.clock => clock
  | AccessorName.immunohistochemistry => immunohistochemistry
  | AccessorName.chelsea => chelsea
  | AccessorName.coffee => coffee
  | AccessorName.hubble_deep_field => hubble_deep_field
  | AccessorName.rocket => rocket
  | AccessorName.astronaut => astronaut

/-- The catalog of accessors with no special handling: logical name
paired with the fixed on-disk filename it loads. -/
def plainCatalog : List (AccessorName × String) :=
  [(AccessorName.camera, "camera.png"),
   (AccessorName.astronaut, "astronaut.png"),
   (AccessorName.text, "text.png"),
   (AccessorName.checkerboard, "chessboard_GRAY.png"),
   (AccessorName.coins, "coins.png"),
   (AccessorName.moon, "moon.png"),
   (AccessorName.page, "page.png"),
   (AccessorName.clock, "clock_motion.png"),
   (AccessorName.immunohistochemistry, "ihc.png"),
   (AccessorName.chelsea, "chelsea.png"),
   (AccessorName.coffee, "coffee.png"),
   (AccessorName.hubble_deep_field, "hubble_deep_field.jpg"),
   (AccessorName.rocket, "rocket.jpg")]

/-- The (filename, grayscale-flag) pairs with which the accessors invoke
the loader. -/
def loadCalls : List (String × Bool) :=
  [("camera.png", false), ("astronaut.png", false), ("text.png", false),
   ("chessboard_GRAY.png", false), ("coins.png", false), ("moon.png", false),
   ("page.png", false), ("horse.png", true), ("clock_motion.png", false),
   ("ihc.png", false), ("chelsea.png", false), ("coffee.png", false),
   ("hubble_deep_field.jpg", false), ("rocket.jpg", false)]

/-- The fixed RuntimeError raised by `lena`; this is the failure the
spec's error taxonomy designates as the Removed kind (asset
intentionally deleted). -/
def removedError : PyError :=
  PyError.runtimeError "This image has been removed due to copyright concerns."

/-- Modelled from the spec: a static, well-formed filesystem — the data
directory contains every cataloged file, and each decodes (under the pil
plugin, with the flag the accessor uses) to an image of non-zero height
and width. -/
def staticOk (env : Env) : Prop :=
  ∀ c ∈ loadCalls, ∃ img : Image,
    env.decode (some "pil") (path_join env.dataDir c.1) c.2 = Except.ok img ∧
    0 < img.height ∧ 0 < img.width

/-- Modelled from the spec: two arrays differing only in channel
dimensionality — equal spatial extents, with the grayscale result
carrying no trailing channel axis or a trailing axis of size 1. -/
def differOnlyInChannelDim (gray color : Image) : Prop :=
  gray.shape = color.shape.take 2 ∨ gray.shape = color.shape.take 2 ++ [1]

/-- Modelled from the spec: the backend's grayscale contract — on the
same path and plugin, decoding with the grayscale flag collapses color
channels and changes nothing else. -/
def grayscaleContract (env : Env) : Prop :=
  ∀ plugin path colorImg grayImg,
    env.decode plugin path false = Except.ok colorImg →
    env.decode plugin path true = Except.ok grayImg →
    differOnlyInChannelDim grayImg colorImg

/-- Unfolding of `load`: plugin selection followed by a decode of the
joined path; its complete state effect is the plugin write. -/
theorem load_spec (env : Env) (f : String) (g : Bool) (s : WState) :
    load env f g s =
      (env.decode (some "pil") (path_join env.dataDir f) g,
       WState.mk (some "pil") s.warnings) := rfl

/-- Concrete test image: 2 by 3, 8-bit samples. -/
def img0 : Image := Image.mk [2, 3] [10, 200, 30, 40, 250, 0] 255

/-- Concrete test environment whose backend decodes every path to `img0`. -/
def env0 : Env := Env.mk "/skimage/data" (fun _ _ _ => Except.ok img0)

/-- Concrete initial state: no plugin selected, no warnings emitted. -/
def s0 : WState := WState.mk none []

/-- Helper: every catalog accessor with no special handling is the loader
applied to its fixed filename with the grayscale flag false. -/
theorem runAccessor_plain (p : AccessorName × String) (hp : p ∈ plainCatalog)
    (env : Env) (s : WState) : runAccessor p.1 env s = load env p.2 false s := by
  fin_cases hp <;> rfl

/-- Claim C1: for every environment (filesystem state) and every prior
state (call count, earlier accessor calls), `lena` fails with the
Removed error and never returns an image — even when the backend would
happily decode a file of that name. -/
theorem lena_always_removed (env : Env) (s : WState) :
    (lena env s).1 = Except.error removedError ∧
      ∀ img : Image, (lena env s).1 ≠ Except.ok img := by
  refine ⟨rfl, fun img h => ?_⟩
  exact Except.noConfusion h

/-- Claim C9: `lena` first appends a deprecation warning naming
`skimage.data.astronaut` as the replacement to the warning stream, then
fails with a generic RuntimeError — the same generic error constructor
as any other runtime failure, not a dedicated kind. -/
theorem lena_warns_then_generic_runtime (env : Env) (s : WState) :
    ∃ msg : String, lena env s =
      (Except.error (PyError.runtimeError msg),
       warn (Warning.deprecation "skimage.data.astronaut") s) :=
  ⟨"This image has been removed due to copyright concerns.", rfl⟩

/-- Claim C5: `load f g` selects the pil backend, joins the data
directory with `f`, and returns exactly the backend's decode of that
resolved path with flag `g`, with no further transformation; its state
effect is the plugin selection alone. -/
theorem load_contract (env : Env) (f : String) (g : Bool) (s : WState) :
    load env f g s =
      (env.decode (some "pil") (path_join env.dataDir f) g,
       WState.mk (some "pil") s.warnings) := rfl

/-- Claim C2: every accessor with no special handling is exactly `load`
applied to its fixed catalog filename with the grayscale flag false. -/
theorem plain_accessor_is_load (p : AccessorName × String) (hp : p ∈ plainCatalog)
    (env : Env) (s : WState) : runAccessor p.1 env s = load env p.2 false s :=
  runAccessor_plain p hp env s

/-- Witness for C2 at the camera entry in a concrete environment. -/
theorem plain_accessor_is_load_witness :
    (AccessorName.camera, "camera.png") ∈ plainCatalog ∧
      runAccessor AccessorName.camera env0 s0 = load env0 "camera.png" false s0 :=
  ⟨by decide, plain_accessor_is_load (AccessorName.camera, "camera.png") (by decide) env0 s0⟩

/-- Claim C4: no call writes shared mutable state that later calls can
observe: the loader's value is independent of the incoming state and its
complete state effect is the backend (plugin) selection, and every
accessor's outcome is independent of the incoming state — so no accessor
call changes the outcome of any subsequent load or accessor call. -/
theorem no_observable_shared_state :
    (∀ env f g (s s' : WState), (load env f g s).1 = (load env f g s').1 ∧
       (load env f g s).2 = WState.mk (some "pil") s.warnings) ∧
    (∀ name env (s s' : WState),
       (runAccessor name env s).1 = (runAccessor name env s').1) := by
  refine ⟨fun env f g s s' => ⟨rfl, rfl⟩, fun name env s s' => ?_⟩
  cases name <;>
    first
      | rfl
      | (rcases hd : env.decode (some "pil") (path_join env.dataDir "horse.png") true
          with e | i <;>
          simp [runAccessor, horse, catchWarnIgnore, load, imread, use_plugin,
            img_as_bool, hd])

/-- Claim C3: `horse` equals the composition of loading `horse.png` with
the grayscale flag true and the boolean conversion, with every warning
emitted in the pipeline suppressed; every other accessor is either the
plain loader on its catalog filename with the flag false, or `lena`,
which never touches the loader (its outcome is independent of the
environment). -/
theorem horse_is_bool_of_gray_load :
    (∀ env s,
      (horse env s).1 = (match (load env "horse.png" true s).1 with
        | Except.ok img => Except.ok (toBoolean img)
        | Except.error e => Except.error e) ∧
      (horse env s).2.warnings = s.warnings) ∧
    (∀ p ∈ plainCatalog, ∀ env s, runAccessor p.1 env s = load env p.2 false s) ∧
    (∀ env env' s, lena env s = lena env' s) := by
  refine ⟨fun env s => ⟨?_, rfl⟩, fun p hp env s => runAccessor_plain p hp env s,
    fun env env' s => rfl⟩
  rcases hd : env.decode (some "pil") (path_join env.dataDir "horse.png") true with e | i <;>
    simp [horse, catchWarnIgnore, load, imread, use_plugin, img_as_bool, hd]

/-- Witness for C3: the horse pipeline and a plain accessor evaluated in
a concrete environment. -/
theorem horse_is_bool_of_gray_load_witness :
    ((horse env0 s0).2.warnings = s0.warnings) ∧
      runAccessor AccessorName.coins env0 s0 = load env0 "coins.png" false s0 :=
  ⟨(horse_is_bool_of_gray_load.1 env0 s0).2,
   horse_is_bool_of_gray_load.2.1 (AccessorName.coins, "coins.png") (by decide) env0 s0⟩

/-- Helper: a load at a cataloged call under a static well-formed
filesystem succeeds with a fixed non-degenerate image, independently of
the starting state. -/
theorem load_staticOk (env : Env) (hso : staticOk env) (c : String × Bool)
    (hc : c ∈ loadCalls) (s s' : WState) :
    ∃ img : Image, (load env c.1 c.2 s).1 = Except.ok img ∧
      0 < img.height ∧ 0 < img.width ∧ (load env c.1 c.2 s').1 = Except.ok img := by
  obtain ⟨img, hd, hh, hw⟩ := hso c hc
  exact ⟨img, hd, hh, hw, hd⟩

/-- Claim C6: under a static well-formed filesystem, every accessor
other than `lena` succeeds with an image of non-zero height and width,
and any two calls — whatever states they start from — return the very
same image (equal shape and content). -/
theorem accessors_succeed_idempotent (env : Env) (hso : staticOk env)
    (name : AccessorName) (hne : name ≠ AccessorName.lena) (s s' : WState) :
    ∃ img : Image, (runAccessor name env s).1 = Except.ok img ∧
      0 < img.height ∧ 0 < img.width ∧
      (runAccessor name env s').1 = Except.ok img := by
  cases name
  case lena => exact absurd rfl hne
  case horse =>
    obtain ⟨img, hd, hh, hw⟩ := hso ("horse.png", true) (by decide)
    refine ⟨toBoolean img, ?_, hh, hw, ?_⟩ <;>
      simp [runAccessor, horse, catchWarnIgnore, load, imread, use_plugin, img_as_bool, hd]
  case camera => exact load_staticOk env hso ("camera.png", false) (by decide) s s'
  case astronaut => exact load_staticOk env hso ("astronaut.png", false) (by decide) s s'
  case text => exact load_staticOk env hso ("text.png", false) (by decide) s s'
  case checkerboard =>
    exact load_staticOk env hso ("chessboard_GRAY.png", false) (by decide) s s'
  case coins => exact load_staticOk env hso ("coins.png", false) (by decide) s s'
  case moon => exact load_staticOk env hso ("moon.png", false) (by decide) s s'
  case page => exact load_staticOk env hso ("page.png", false) (by decide) s s'
  case clock => exact load_staticOk env hso ("clock_motion.png", false) (by decide) s s'
  case immunohistochemistry => exact load_staticOk env hso ("ihc.png", false) (by decide) s s'
  case chelsea => exact load_staticOk env hso ("chelsea.png", false) (by decide) s s'
  case coffee => exact load_staticOk env hso ("coffee.png", false) (by decide) s s'
  case hubble_deep_field =>
    exact load_staticOk env hso ("hubble_deep_field.jpg", false) (by decide) s s'
  case rocket => exact load_staticOk env hso ("rocket.jpg", false) (by decide) s s'

/-- Witness for C6 at the camera accessor in a concrete well-formed
environment. -/
theorem accessors_succeed_idempotent_witness :
    staticOk env0 ∧
      ∃ img : Image, (runAccessor AccessorName.camera env0 s0).1 = Except.ok img ∧
        0 < img.height ∧ 0 < img.width ∧
        (runAccessor AccessorName.camera env0 s0).1 = Except.ok img :=
  ⟨fun c _ => ⟨img0, rfl, by decide, by decide⟩,
   accessors_succeed_idempotent env0 (fun c _ => ⟨img0, rfl, by decide, by decide⟩)
     AccessorName.camera (by decide) s0 s0⟩

/-- Claim C7: when the backend honors its grayscale contract, loading
the same present file with the flag false and with the flag true yields
arrays that differ only in channel dimensionality — both calls hit the
same resolved path under the same plugin, so the backend contract
transfers verbatim to the loader. -/
theorem load_gray_differs_only_in_channels (env : Env) (hc : grayscaleContract env)
    (f : String) (s s' : WState) (colorImg grayImg : Image)
    (hcol : (load env f false s).1 = Except.ok colorImg)
    (hgr : (load env f true s').1 = Except.ok grayImg) :
    differOnlyInChannelDim grayImg colorImg :=
  hc (some "pil") (path_join env.dataDir f) colorImg grayImg hcol hgr

/-- Concrete grayscale decode result for the C7 witness. -/
def gray7 : Image := Image.mk [2, 3] [0, 255, 0, 255, 0, 255] 255

/-- Concrete color decode result for the C7 witness. -/
def color7 : Image := Image.mk [2, 3, 3] (List.replicate 18 7) 255

/-- Concrete environment whose backend collapses channels when asked. -/
def env7 : Env :=
  Env.mk "/skimage/data" (fun _ _ g => if g then Except.ok gray7 else Except.ok color7)

/-- Witness for C7 in a concrete environment honoring the contract. -/
theorem load_gray_differs_only_in_channels_witness :
    grayscaleContract env7 ∧ differOnlyInChannelDim gray7 color7 :=
  ⟨by
    intro plugin path ci gi h1 h2
    have h1' : (Except.ok color7 : Except PyError Image) = Except.ok ci := h1
    have h2' : (Except.ok gray7 : Except PyError Image) = Except.ok gi := h2
    injection h1' with e1
    injection h2' with e2
    rw [← e1, ← e2]
    exact Or.inl (by decide),
   load_gray_differs_only_in_channels env7
     (by
       intro plugin path ci gi h1 h2
       have h1' : (Except.ok color7 : Except PyError Image) = Except.ok ci := h1
       have h2' : (Except.ok gray7 : Except PyError Image) = Except.ok gi := h2
       injection h1' with e1
       injection h2' with e2
       rw [← e1, ← e2]
       exact Or.inl (by decide))
     "chelsea.png" s0 s0 color7 gray7 rfl rfl⟩

/-- Claim C8: any image that a successful `horse` call returns is
boolean-encoded — its pixel type is the two-valued one and every sample
is one of the two values 0 and 1. -/
theorem horse_boolean_encoded (env : Env) (s : WState) (img : Image)
    (h : (horse env s).1 = Except.ok img) :
    img.maxVal = 1 ∧ ∀ v ∈ img.data, v = 0 ∨ v = 1 := by
  rcases hd : env.decode (some "pil") (path_join env.dataDir "horse.png") true with e | i <;>
    simp [horse, catchWarnIgnore, load, imread, use_plugin, img_as_bool, hd] at h
  subst h
  refine ⟨rfl, fun v hv => ?_⟩
  simp [toBoolean] at hv
  obtain ⟨a, _, ha⟩ := hv
  split at ha
  · exact Or.inr ha.symm
  · exact Or.inl ha.symm

/-- Witness for C8: horse evaluated in a concrete environment whose
source file is grayscale 8-bit. -/
theorem horse_boolean_encoded_witness :
    (horse env0 s0).1 = Except.ok (toBoolean img0) ∧
      toBoolean img0 = Image.mk [2, 3] [0, 1, 0, 0, 1, 0] 1 ∧
      ((toBoolean img0).maxVal = 1 ∧ ∀ v ∈ (toBoolean img0).data, v = 0 ∨ v = 1) :=
  ⟨rfl, by decide, horse_boolean_encoded env0 s0 (toBoolean img0) rfl⟩

/-- Counterexample for C10: with the data directory `/skimage/data`, the
path resolved for the empty filename is not the data directory itself —
a trailing separator is appended. -/
theorem load_empty_filename_cex : path_join env0.dataDir "" ≠ env0.dataDir := by
  decide

/-- Amended claim C10: `load` performs no validation of its filename —
an absolute filename discards the data-directory prefix entirely, so the
read happens outside the data directory rather than failing; the empty
filename resolves to the data directory with a trailing separator
appended (a path denoting the data directory itself). -/
theorem load_no_filename_validation :
    (∀ d f : String, isAbs f = true → path_join d f = f) ∧
    (∀ env f g (s : WState), isAbs f = true →
       (load env f g s).1 = env.decode (some "pil") f g) ∧
    (∀ env g (s : WState), env.dataDir ≠ "" → endsWithSep env.dataDir = false →
       (load env "" g s).1 = env.decode (some "pil") (env.dataDir ++ "/") g) := by
  refine ⟨fun d f hf => ?_, fun env f g s hf => ?_, fun env g s h1 h2 => ?_⟩
  · simp [path_join, hf]
  · simp [load, imread, use_plugin, path_join, hf]
  · have hb : isAbs "" = false := rfl
    simp [load, imread, use_plugin, path_join, hb, h1, h2]

/-- Witness for the amended C10 at concrete paths. -/
theorem load_no_filename_validation_witness :
    path_join env0.dataDir "/etc/passwd" = "/etc/passwd" ∧
      (load env0 "/etc/passwd" false s0).1 = env0.decode (some "pil") "/etc/passwd" false ∧
      (load env0 "" false s0).1 = env0.decode (some "pil") (env0.dataDir ++ "/") false :=
  ⟨load_no_filename_validation.1 env0.dataDir "/etc/passwd" (by decide),
   load_no_filename_validation.2.1 env0 "/etc/passwd" false s0 (by decide),
   load_no_filename_validation.2.2 env0 false s0 (by decide) (by decide)⟩
